import Mathlib

/-!
Shallow embedding of the reminder selection and rotation engine of
`src/reminders.rs` from the `reminder-display` repository.

The pure logic (eligibility matching, rotation arithmetic, current-reminder
selection) is translated directly.  The file-system boundary of
`ReminderManager::load_reminders` — the result of `fs::read_to_string`, of
`serde_json::from_str`, and of `fs::write` — is passed in as explicit
parameters, so that every branch of the Rust code is represented exactly.
Case folding models `str::to_lowercase` on the ASCII strings the program
compares (weekday names, the keywords `morning`/`afternoon`/`evening`).
Clock instants are modelled by weekday plus hour/minute/second of day, and
`chrono::NaiveTime` values (whose seconds are zero when parsed with the
`%H:%M` format) are compared as seconds-of-day.
-/

namespace ReminderDisplay

/-- Model of `str::to_lowercase` on a character list (ASCII case folding). -/
def lowerChars (l : List Char) : List Char := l.map Char.toLower

/-- Model of `str::to_lowercase` on a string. -/
def strLower (s : String) : String := ⟨lowerChars s.data⟩

/-- Model of `str::trim`: whitespace removed from both ends. -/
def trimChars (l : List Char) : List Char :=
  ((l.dropWhile Char.isWhitespace).reverse.dropWhile Char.isWhitespace).reverse

/-- Model of `str::split_once(c)`: split at the first occurrence of `c`,
returning the parts before and after it, or `none` when `c` does not occur. -/
def splitOnce (c : Char) : List Char → Option (List Char × List Char)
  | [] => none
  | x :: xs =>
    if x = c then some ([], xs)
    else
      match splitOnce c xs with
      | some (a, b) => some (x :: a, b)
      | none => none

/-- One or two decimal digits, greedily (chrono numeric scan with max width 2);
returns the value and the rest of the input, or `none` if no digit leads. -/
def takeDigits2 : List Char → Option (Nat × List Char)
  | [] => none
  | c :: rest =>
    if c.isDigit then
      match rest with
      | c2 :: rest2 =>
        if c2.isDigit then some ((c.toNat - 48) * 10 + (c2.toNat - 48), rest2)
        else some (c.toNat - 48, rest)
      | [] => some (c.toNat - 48, [])
    else none

/-- Model of `NaiveTime::parse_from_str(s, "%H:%M")`: 1–2 digit hour, literal
colon, 1–2 digit minute, nothing left over, hour < 24 and minute < 60 (chrono
trims whitespace before each numeric field).  The parsed time is returned as
seconds of day (seconds component is zero under this format). -/
def parseHM (l : List Char) : Option Nat :=
  match takeDigits2 (l.dropWhile Char.isWhitespace) with
  | none => none
  | some (h, rest) =>
    match rest with
    | ':' :: rest2 =>
      match takeDigits2 (rest2.dropWhile Char.isWhitespace) with
      | none => none
      | some (m, rest3) =>
        if rest3 = [] ∧ h < 24 ∧ m < 60 then some (h * 3600 + m * 60) else none
    | _ => none

/-- A local instant as the program observes it via `chrono::Local::now()`:
the weekday together with the time of day. -/
structure Instant where
  weekday : Fin 7
  hour : Nat
  minute : Nat
  second : Nat
deriving DecidableEq

/-- Seconds of day of an instant: the order on `chrono::NaiveTime` values. -/
def Instant.timeSecs (t : Instant) : Nat :=
  t.hour * 3600 + t.minute * 60 + t.second

/-- The `%A` format output for a weekday: the full English name. -/
def weekdayName (w : Fin 7) : String :=
  match w.val with
  | 0 => "Sunday"
  | 1 => "Monday"
  | 2 => "Tuesday"
  | 3 => "Wednesday"
  | 4 => "Thursday"
  | 5 => "Friday"
  | _ => "Saturday"

/-- Record type `Reminder` (src/reminders.rs, lines 7–14). -/
structure Reminder where
  text : String
  category : String
  priority : String
  time_range : Option String
  days : Option (List String)
deriving DecidableEq

/-- The fall-through arm of `Reminder::is_in_time_range`: split the string on
the first `-`, trim both sides, parse each with `%H:%M`; `some (start, end)`
exactly when both sides parse. -/
def parsesAsRange (tr : String) : Option (Nat × Nat) :=
  match splitOnce '-' tr.data with
  | some (a, b) =>
    match parseHM (trimChars a), parseHM (trimChars b) with
    | some s, some e => some (s, e)
    | _, _ => none
  | none => none

/-- Translation of `Reminder::is_in_time_range` (src/reminders.rs, lines
45–73).  The receiver is unused in the source, so it is a plain function. -/
def is_in_time_range (tr : String) (now : Instant) : Bool :=
  if strLower tr = "morning" then decide (6 ≤ now.hour ∧ now.hour < 12)
  else if strLower tr = "afternoon" then decide (12 ≤ now.hour ∧ now.hour < 17)
  else if strLower tr = "evening" then decide (17 ≤ now.hour ∧ now.hour < 22)
  else
    match parsesAsRange tr with
    | some (s, e) => decide (s ≤ now.timeSecs ∧ now.timeSecs ≤ e)
    | none => true

/-- The day-of-week check at the top of `Reminder::is_active_now`
(src/reminders.rs, lines 30–35): when `days` is present, some member must
equal, after lowercasing, the lowercased `%A` name of the current weekday. -/
def Reminder.dayOk (r : Reminder) (now : Instant) : Bool :=
  match r.days with
  | some days => days.any fun d => strLower d = strLower (weekdayName now.weekday)
  | none => true

/-- Translation of `Reminder::is_active_now` (src/reminders.rs, lines 26–43). -/
def Reminder.is_active_now (r : Reminder) (now : Instant) : Bool :=
  if r.dayOk now then
    match r.time_range with
    | some tr => is_in_time_range tr now
    | none => true
  else false

/-- State of `ReminderManager` (src/reminders.rs, lines 76–83). -/
structure ReminderManager where
  reminders : List Reminder
  current_index : Nat
  last_rotation : Nat
  rotation_interval : Nat
  last_file_check : String
  file_path : String
deriving DecidableEq

/-- The kind of a failed `fs::read_to_string`.  The Rust code matches
`Err(_)` without inspecting the kind; the distinction exists only so that
claims about "missing" versus other I/O errors can be stated. -/
inductive ReadErrorKind
  | notFound
  | permissionDenied
  | invalidData
deriving DecidableEq

/-- The five-record default payload built by
`ReminderManager::create_default_reminders_file` (src/reminders.rs,
lines 153–205). -/
def default_reminders : List Reminder :=
  [ { text := "Check your monitoring dashboards", category := "DevOps",
      priority := "high", time_range := some "09:00-17:00",
      days := some ["monday", "tuesday", "wednesday", "thursday", "friday"] },
    { text := "Review and respond to alerts", category := "DevOps",
      priority := "high", time_range := some "09:00-17:00",
      days := some ["monday", "tuesday", "wednesday", "thursday", "friday"] },
    { text := "Take a 5-minute break and stretch", category := "Health",
      priority := "medium", time_range := none, days := none },
    { text := "Check backup status and logs", category := "DevOps",
      priority := "medium", time_range := some "morning",
      days := some ["monday", "wednesday", "friday"] },
    { text := "Review security alerts and patches", category := "Security",
      priority := "high", time_range := some "morning",
      days := some ["monday", "thursday"] } ]

/-- Translation of `ReminderManager::create_default_reminders_file`
(src/reminders.rs, lines 152–213).  Serializing the fixed default list with
`serde_json::to_string_pretty` cannot fail, so only the `fs::write` result
is a parameter: the defaults are installed in memory, and the refresh label
stamped, only when the write succeeds. -/
def create_default_reminders_file (m : ReminderManager) (nowLabel : String)
    (writeOk : Bool) : ReminderManager :=
  if writeOk then
    { m with reminders := default_reminders, last_file_check := nowLabel }
  else m

/-- Translation of `ReminderManager::load_reminders` (src/reminders.rs,
lines 126–150).
`read` carries the `fs::read_to_string` result, with a successful read
carrying the `serde_json::from_str::<Vec<Reminder>>` result of the content;
`nowLabel` is the `%H:%M:%S` rendering of the wall clock; `writeOk` is the
result of `fs::write` on the default-payload path.  The second component of
the result records whether the default-payload write was attempted. -/
def load_reminders (m : ReminderManager)
    (read : Except ReadErrorKind (Except String (List Reminder)))
    (nowLabel : String) (writeOk : Bool) : ReminderManager × Bool :=
  match read with
  | .ok (.ok rs) =>
    if m.current_index ≥ rs.length ∧ rs.isEmpty = false then
      ({ m with reminders := rs, last_file_check := nowLabel,
                current_index := 0 }, false)
    else ({ m with reminders := rs, last_file_check := nowLabel }, false)
  | .ok (.error _) => (m, false)
  | .error _ => (create_default_reminders_file m nowLabel writeOk, true)

/-- The active subset: `reminders.iter().filter(|r| r.is_active_now())`,
as built inside `get_current_reminder` and `get_active_reminder_count`. -/
def active_reminders (m : ReminderManager) (now : Instant) : List Reminder :=
  m.reminders.filter fun r => r.is_active_now now

/-- Translation of `ReminderManager::get_active_reminder_count`
(src/reminders.rs, lines 269–271). -/
def get_active_reminder_count (m : ReminderManager) (now : Instant) : Nat :=
  (active_reminders m now).length

/-- Translation of `ReminderManager::get_current_reminder`
(src/reminders.rs, lines 219–233). -/
def get_current_reminder (m : ReminderManager) (now : Instant) :
    Option Reminder :=
  let active := active_reminders m now
  if active.isEmpty then none
  else active.get? (m.current_index % active.length)

/-- Translation of `ReminderManager::rotate_if_needed` (src/reminders.rs,
lines 235–241).
`nowTs` is the Unix timestamp `Self::current_timestamp()`; `now` is the
local instant the active count is computed at. -/
def rotate_if_needed (m : ReminderManager) (nowTs : Nat) (now : Instant) :
    ReminderManager :=
  if nowTs - m.last_rotation ≥ m.rotation_interval then
    { m with
      current_index :=
        (m.current_index + 1) % max (get_active_reminder_count m now) 1,
      last_rotation := nowTs }
  else m

/-- Translation of `ReminderManager::get_total_reminders` (src/reminders.rs,
lines 243–245). -/
def get_total_reminders (m : ReminderManager) (now : Instant) : Nat :=
  get_active_reminder_count m now

/-- Translation of `ReminderManager::get_current_index` (src/reminders.rs,
lines 247–249). -/
def get_current_index (m : ReminderManager) : Nat :=
  m.current_index

/-- Translation of `ReminderManager::time_until_next_rotation`
(src/reminders.rs, lines 251–259). -/
def time_until_next_rotation (m : ReminderManager) (nowTs : Nat) : Nat :=
  let elapsed := nowTs - m.last_rotation
  if elapsed ≥ m.rotation_interval then 0 else m.rotation_interval - elapsed

/-! ### Concrete fixtures used by counterexamples and witnesses -/

/-- A reminder with no constraints: active at every instant. -/
def rAlways : Reminder :=
  { text := "Always", category := "Test", priority := "medium",
    time_range := none, days := none }

/-- A reminder whose `days` entry matches no weekday: never active. -/
def rNever : Reminder :=
  { text := "Never", category := "Test", priority := "low",
    time_range := none, days := some ["zzz"] }

/-- Monday 10:00:00 local time. -/
def mondayTen : Instant :=
  { weekday := ⟨1, by decide⟩, hour := 10, minute := 0, second := 0 }

/-- A manager state with the given record list and cursor, default interval. -/
def baseManager (rs : List Reminder) (idx : Nat) : ReminderManager :=
  { reminders := rs, current_index := idx, last_rotation := 0,
    rotation_interval := 30, last_file_check := "",
    file_path := "work_reminders.json" }

/-! ### Helper lemmas -/

/-- A successful `splitOnce` means the separator occurs in the list. -/
theorem splitOnce_mem {c : Char} :
    ∀ {l : List Char} {p : List Char × List Char},
      splitOnce c l = some p → c ∈ l
  | [], _, h => by simp [splitOnce] at h
  | x :: xs, p, h => by
    by_cases hx : x = c
    · simp [hx]
    · simp only [splitOnce, if_neg hx] at h
      cases hs : splitOnce c xs with
      | none => rw [hs] at h; exact absurd h (by simp)
      | some q => exact List.mem_cons_of_mem _ (splitOnce_mem hs)

/-- A string that parses as an explicit time range contains a dash. -/
theorem parsesAsRange_dash_mem {tr : String} {p : Nat × Nat}
    (h : parsesAsRange tr = some p) : '-' ∈ tr.data := by
  unfold parsesAsRange at h
  cases hs : splitOnce '-' tr.data with
  | none => rw [hs] at h; exact absurd h (by simp)
  | some ab => exact splitOnce_mem hs

/-- Lowercasing preserves membership of characters that lowercase to
themselves. -/
theorem mem_lowerChars_of_mem {c : Char} {l : List Char}
    (hc : Char.toLower c = c) (h : c ∈ l) : c ∈ lowerChars l := by
  have := List.mem_map_of_mem Char.toLower h
  rw [hc] at this
  simpa [lowerChars] using this

/-- A string containing a dash cannot lowercase to a dash-free keyword. -/
theorem strLower_ne_of_dash {tr : String} (kw : String) (hmem : '-' ∈ tr.data)
    (hkw : '-' ∉ kw.data) : strLower tr ≠ kw := by
  intro h
  apply hkw
  have hdata : lowerChars tr.data = kw.data := congrArg String.data h
  rw [← hdata]
  exact mem_lowerChars_of_mem rfl hmem

/-- A string that parses as an explicit time range is none of the three
symbolic keywords after lowercasing. -/
theorem range_form_not_keyword {tr : String} {p : Nat × Nat}
    (h : parsesAsRange tr = some p) :
    strLower tr ≠ "morning" ∧ strLower tr ≠ "afternoon"
      ∧ strLower tr ≠ "evening" := by
  have hmem := parsesAsRange_dash_mem h
  exact ⟨strLower_ne_of_dash _ hmem (by decide),
    strLower_ne_of_dash _ hmem (by decide),
    strLower_ne_of_dash _ hmem (by decide)⟩

/-- A positive active count means the active list is not empty. -/
theorem active_isEmpty_false {m : ReminderManager} {now : Instant}
    (hpos : 0 < get_active_reminder_count m now) :
    (active_reminders m now).isEmpty = false := by
  simp only [get_active_reminder_count] at hpos
  cases hal : active_reminders m now with
  | nil => rw [hal] at hpos; simp at hpos
  | cons a l => rfl

/-! ### Claim theorems -/

/-- C1 (counterexample): a read failure that is NOT "source missing" (here
`invalidData`, e.g. a non-UTF-8 file that exists) still takes the
default-payload path: the write to the source is attempted, and with the
write succeeding the previously loaded in-memory list is replaced by the
synthesized defaults — contradicting "previous list retained unchanged and
no default payload synthesized or written". -/
theorem c1_counterexample :
    (load_reminders (baseManager [rAlways] 0) (.error .invalidData)
        "12:00:00" true).2 = true
    ∧ (load_reminders (baseManager [rAlways] 0) (.error .invalidData)
        "12:00:00" true).1.reminders ≠ (baseManager [rAlways] 0).reminders := by
  constructor
  · rfl
  · decide

/-- C1 (amended): `load_reminders` matches any read error with `Err(_)`: on
EVERY read failure, missing or not, the default payload is synthesized and a
write to the source location is attempted; the in-memory list becomes the
defaults exactly when that write succeeds, and is retained otherwise. -/
theorem c1_any_read_failure_synthesizes (m : ReminderManager)
    (k : ReadErrorKind) (lbl : String) (wOk : Bool) :
    (load_reminders m (.error k) lbl wOk).2 = true
    ∧ (load_reminders m (.error k) lbl wOk).1.reminders
        = (if wOk then default_reminders else m.reminders) := by
  cases wOk <;> simp [load_reminders, create_default_reminders_file]

/-- C2 (counterexample): when the default payload is synthesized on a cold
start but the write fails, the in-memory list does NOT become the five
default records — it stays empty, contradicting the claim that the engine
still installs the synthesized set for that run. -/
theorem c2_counterexample :
    (load_reminders (baseManager [] 0) (.error .notFound)
        "09:00:00" false).1.reminders = []
    ∧ default_reminders ≠ [] := by
  constructor
  · rfl
  · decide

/-- C2 (amended): when persisting the synthesized default payload fails, the
in-memory record list and the whole manager state are left unchanged — the
defaults are installed only when the write succeeds. -/
theorem c2_write_failure_keeps_state (m : ReminderManager)
    (k : ReadErrorKind) (lbl : String) :
    (load_reminders m (.error k) lbl false).1 = m := by
  simp [load_reminders, create_default_reminders_file]

/-- C5: when the source is readable but its content fails to parse, the
entire previous manager state — in particular the in-memory record list and
the last-refresh label — is retained unchanged, and no default-payload write
is attempted. -/
theorem c5_parse_error_retains_state (m : ReminderManager)
    (msg lbl : String) (wOk : Bool) :
    (load_reminders m (.ok (.error msg)) lbl wOk).1 = m
    ∧ (load_reminders m (.ok (.error msg)) lbl wOk).2 = false := by
  constructor <;> rfl

/-- C3 (counterexample): with the cursor at 2, loading three records of
which only one is active at Monday 10:00 leaves the cursor at 2 — the
active-set size (1) has shrunk to at most the cursor, yet the cursor is NOT
reset to 0, and the stored cursor exceeds the active-set bound.  The reset
in `load_reminders` compares against the TOTAL list length (3), not the
active count. -/
theorem c3_counterexample :
    get_current_index
        (load_reminders (baseManager [] 2)
          (.ok (.ok [rNever, rNever, rAlways])) "10:00:00" true).1 = 2
    ∧ get_active_reminder_count
        (load_reminders (baseManager [] 2)
          (.ok (.ok [rNever, rNever, rAlways])) "10:00:00" true).1 mondayTen
        = 1 := by
  constructor
  · decide
  · decide

/-- C3 (amended): the cursor is reset to 0 on a successful load only when it
is at or past the TOTAL length of the newly loaded list and that list is
nonempty; consequently after a successful load of a nonempty list the stored
cursor is strictly below the total record count, but it may still be at or
past the ACTIVE-set size — out-of-range selection is instead prevented at
read time by the modulo in `get_current_reminder`. -/
theorem c3_cursor_bounded_by_total (m : ReminderManager) (rs : List Reminder)
    (lbl : String) (wOk : Bool) (h : rs ≠ []) :
    (load_reminders m (.ok (.ok rs)) lbl wOk).1.current_index < rs.length := by
  have hlen : 0 < rs.length := List.length_pos.mpr h
  have hemp : rs.isEmpty = false := by
    cases rs with
    | nil => exact absurd rfl h
    | cons a l => rfl
  by_cases hc : m.current_index ≥ rs.length ∧ rs.isEmpty = false
  · simp only [load_reminders, if_pos hc]
    exact hlen
  · simp only [load_reminders, if_neg hc]
    have hlt : ¬ m.current_index ≥ rs.length := fun hge => hc ⟨hge, hemp⟩
    show m.current_index < rs.length
    omega

/-- C3 (witness): the amended bound at a concrete input. -/
theorem c3_witness :
    (load_reminders (baseManager [] 2) (.ok (.ok [rAlways]))
        "10:00:00" true).1.current_index < [rAlways].length :=
  c3_cursor_bounded_by_total _ _ _ _ (by decide)

/-- C4 (counterexample): with the stored cursor at 5 and a single active
reminder, `get_current_index` hands the presentation layer 5, which is not
strictly less than the active count 1 — the accessor returns the raw cursor,
not a value reduced modulo the active count. -/
theorem c4_counterexample :
    get_current_index (baseManager [rAlways] 5) = 5
    ∧ get_active_reminder_count (baseManager [rAlways] 5) mondayTen = 1
    ∧ ¬ (get_current_index (baseManager [rAlways] 5)
          < get_active_reminder_count (baseManager [rAlways] 5) mondayTen) := by
  refine ⟨rfl, by decide, by decide⟩

/-- C4 (amended): `get_current_index` returns the stored cursor unreduced —
it can be at or past the active count; the modulo reduction with the active
count at read time happens only inside `get_current_reminder`, which indexes
the active list at the reduced position. -/
theorem c4_raw_cursor_reduced_at_read (m : ReminderManager) (now : Instant)
    (h : 0 < get_active_reminder_count m now) :
    get_current_index m = m.current_index
    ∧ get_current_reminder m now
        = (active_reminders m now).get?
            (get_current_index m % get_active_reminder_count m now) := by
  refine ⟨rfl, ?_⟩
  have hne := active_isEmpty_false h
  simp [get_current_reminder, hne, get_current_index,
    get_active_reminder_count]

/-- C4 (witness): the amended statement at a concrete input with the cursor
past the active count. -/
theorem c4_witness :
    get_current_index (baseManager [rAlways] 5)
        = (baseManager [rAlways] 5).current_index
    ∧ get_current_reminder (baseManager [rAlways] 5) mondayTen
        = (active_reminders (baseManager [rAlways] 5) mondayTen).get?
            (get_current_index (baseManager [rAlways] 5)
              % get_active_reminder_count (baseManager [rAlways] 5) mondayTen) :=
  c4_raw_cursor_reduced_at_read _ _ (by decide)

/-- C6: for a record whose `time_range` parses as a literal
`"HH:MM-HH:MM"` range (split on the first dash, both sides valid after
trimming), the time constraint holds iff start ≤ now.time ≤ end, inclusive
on both ends; and when start > end (an overnight window) the record is
eligible at no time of day. -/
theorem c6_literal_range_inclusive (r : Reminder) (tr : String)
    (now : Instant) (s e : Nat) (htr : r.time_range = some tr)
    (hp : parsesAsRange tr = some (s, e)) :
    (is_in_time_range tr now = true
      ↔ (s ≤ now.timeSecs ∧ now.timeSecs ≤ e))
    ∧ (e < s → r.is_active_now now = false) := by
  obtain ⟨hne1, hne2, hne3⟩ := range_form_not_keyword hp
  have hrange : is_in_time_range tr now
      = decide (s ≤ now.timeSecs ∧ now.timeSecs ≤ e) := by
    simp [is_in_time_range, hne1, hne2, hne3, hp]
  constructor
  · rw [hrange]
    exact ⟨fun hdec => of_decide_eq_true hdec, fun hh => decide_eq_true hh⟩
  · intro hlt
    have hfalse : is_in_time_range tr now = false := by
      rw [hrange]
      exact decide_eq_false (by omega)
    cases hday : r.dayOk now
      <;> simp [Reminder.is_active_now, htr, hday, hfalse]

/-- C6 (witness): the overnight range 22:00-06:00 at Monday 10:00 — the
boundary comparison is as claimed and the record is inactive. -/
theorem c6_witness :
    (is_in_time_range "22:00-06:00" mondayTen = true
      ↔ (79200 ≤ mondayTen.timeSecs ∧ mondayTen.timeSecs ≤ 21600))
    ∧ (21600 < 79200 →
        Reminder.is_active_now
          { text := "t", category := "c", priority := "p",
            time_range := some "22:00-06:00", days := none } mondayTen
          = false) :=
  c6_literal_range_inclusive
    { text := "t", category := "c", priority := "p",
      time_range := some "22:00-06:00", days := none }
    "22:00-06:00" mondayTen 79200 21600 rfl (by decide)

/-- C7: a present `time_range` that is none of the keywords
morning/afternoon/evening after lowercasing and does not parse as a valid
range evaluates to true at every instant (fail-open), so eligibility is
exactly the day constraint. -/
theorem c7_unparseable_range_fail_open (r : Reminder) (tr : String)
    (now : Instant) (htr : r.time_range = some tr)
    (h1 : strLower tr ≠ "morning") (h2 : strLower tr ≠ "afternoon")
    (h3 : strLower tr ≠ "evening") (hp : parsesAsRange tr = none) :
    is_in_time_range tr now = true
    ∧ r.is_active_now now = r.dayOk now := by
  have hrange : is_in_time_range tr now = true := by
    simp [is_in_time_range, h1, h2, h3, hp]
  refine ⟨hrange, ?_⟩
  cases hday : r.dayOk now
    <;> simp [Reminder.is_active_now, htr, hday, hrange]

/-- C7 (witness): the fail-open behaviour on the malformed range
"not-a-range" for a record constrained to Mondays, at Monday 10:00. -/
theorem c7_witness :
    is_in_time_range "not-a-range" mondayTen = true
    ∧ Reminder.is_active_now
        { text := "t", category := "c", priority := "p",
          time_range := some "not-a-range", days := some ["monday"] }
        mondayTen
      = Reminder.dayOk
          { text := "t", category := "c", priority := "p",
            time_range := some "not-a-range", days := some ["monday"] }
          mondayTen :=
  c7_unparseable_range_fail_open
    { text := "t", category := "c", priority := "p",
      time_range := some "not-a-range", days := some ["monday"] }
    "not-a-range" mondayTen rfl (by decide) (by decide) (by decide)
    (by decide)

/-- C10: the day filter is fail-closed — a record whose `days` list contains
no entry equal, case-insensitively, to any of the seven English weekday
names is eligible at no instant whatsoever. -/
theorem c10_unrecognized_days_fail_closed (r : Reminder) (ds : List String)
    (now : Instant) (hd : r.days = some ds)
    (hnone : ∀ d ∈ ds, ∀ w : Fin 7, strLower d ≠ strLower (weekdayName w)) :
    r.is_active_now now = false := by
  have hday : r.dayOk now = false := by
    simp only [Reminder.dayOk, hd]
    rw [List.any_eq_false]
    intro d hdm
    simp only [decide_eq_true_eq]
    exact hnone d hdm now.weekday
  simp [Reminder.is_active_now, hday]

/-- C10 (witness): a record whose only day entry is the misspelling
"munday" is inactive at Monday 10:00. -/
theorem c10_witness :
    Reminder.is_active_now
      { text := "t", category := "c", priority := "p",
        time_range := none, days := some ["munday"] } mondayTen = false :=
  c10_unrecognized_days_fail_closed
    { text := "t", category := "c", priority := "p",
      time_range := none, days := some ["munday"] }
    ["munday"] mondayTen rfl (by decide)

/-- C8: with zero active reminders `get_current_reminder` returns none; the
modulo base of the rotation advance floors at 1, so no modulo-by-zero base
arises and an advance at zero active count forces the cursor to 0; and with
a positive active count — even one smaller than the stored cursor — the read
re-indexes with cursor modulo the current count, an in-bounds position, and
returns an element. -/
theorem c8_safe_indexing (m : ReminderManager) (now : Instant) :
    (get_active_reminder_count m now = 0 →
      get_current_reminder m now = none)
    ∧ 1 ≤ max (get_active_reminder_count m now) 1
    ∧ (0 < get_active_reminder_count m now →
        m.current_index % get_active_reminder_count m now
            < get_active_reminder_count m now
        ∧ (get_current_reminder m now).isSome = true)
    ∧ (∀ ts, get_active_reminder_count m now = 0 →
        m.rotation_interval ≤ ts - m.last_rotation →
        (rotate_if_needed m ts now).current_index = 0) := by
  refine ⟨?_, le_max_right _ _, ?_, ?_⟩
  · intro h0
    have hnil : active_reminders m now = [] := List.length_eq_zero.mp h0
    simp [get_current_reminder, hnil]
  · intro hpos
    refine ⟨Nat.mod_lt _ hpos, ?_⟩
    have hne := active_isEmpty_false hpos
    have hlt : m.current_index % (active_reminders m now).length
        < (active_reminders m now).length := Nat.mod_lt _ hpos
    simp [get_current_reminder, hne, List.get?_eq_getElem?,
      List.getElem?_eq_getElem hlt]
  · intro ts h0 hdue
    have : (rotate_if_needed m ts now).current_index
        = (m.current_index + 1) % max (get_active_reminder_count m now) 1 := by
      simp [rotate_if_needed, hdue]
    rw [this, h0, Nat.zero_max, Nat.mod_one]

/-- C8 (witness): both branches at concrete inputs — no active reminder
yields none, and a cursor of 7 over a single active reminder still yields an
element. -/
theorem c8_witness :
    get_current_reminder (baseManager [rNever] 0) mondayTen = none
    ∧ (get_current_reminder (baseManager [rAlways] 7) mondayTen).isSome
        = true :=
  ⟨(c8_safe_indexing (baseManager [rNever] 0) mondayTen).1 (by decide),
    ((c8_safe_indexing (baseManager [rAlways] 7) mondayTen).2.2.1
      (by decide)).2⟩

/-- C9 (counterexample): two advance calls 20 seconds apart (interval 30),
where the first call is not yet due: the second call still changes the
cursor, because the elapsed time is measured from the last ADVANCE, not from
the previous call — refuting idempotence for arbitrary states. -/
theorem c9_counterexample :
    (40 - 20 < (baseManager [rAlways, rAlways] 0).rotation_interval)
    ∧ (rotate_if_needed
          (rotate_if_needed (baseManager [rAlways, rAlways] 0) 20 mondayTen)
          40 mondayTen).current_index
        ≠ (rotate_if_needed (baseManager [rAlways, rAlways] 0) 20
            mondayTen).current_index := by
  constructor
  · decide
  · decide

/-- C9 (amended): when the FIRST call is due — it advances the cursor by one
modulo max(active count, 1) and restamps the last-advance time — a second
call at a timestamp less than the interval later is never due and leaves the
whole state, in particular the cursor, unchanged. -/
theorem c9_advance_idempotent_after_due (m : ReminderManager)
    (t1 t2 : Nat) (now1 now2 : Instant)
    (hdue : m.rotation_interval ≤ t1 - m.last_rotation)
    (_h12 : t1 ≤ t2) (hlt : t2 - t1 < m.rotation_interval) :
    rotate_if_needed (rotate_if_needed m t1 now1) t2 now2
      = rotate_if_needed m t1 now1 := by
  have h1 : rotate_if_needed m t1 now1
      = { m with
          current_index :=
            (m.current_index + 1) % max (get_active_reminder_count m now1) 1,
          last_rotation := t1 } := by
    simp [rotate_if_needed, hdue]
  rw [h1]
  simp only [rotate_if_needed]
  rw [if_neg]
  show ¬ m.rotation_interval ≤ t2 - t1
  omega

/-- C9 (witness): the amended idempotence at concrete inputs: a due advance
at t=30 followed by a call at t=45 with interval 30. -/
theorem c9_witness :
    rotate_if_needed
        (rotate_if_needed (baseManager [rAlways] 0) 30 mondayTen)
        45 mondayTen
      = rotate_if_needed (baseManager [rAlways] 0) 30 mondayTen :=
  c9_advance_idempotent_after_due (baseManager [rAlways] 0) 30 45
    mondayTen mondayTen (by decide) (by decide) (by decide)

end ReminderDisplay
